import Mathlib

/-!
Verification of the FitWeek workout-planning app's service layer.

The app delegates all persistence to a remote document store (Appwrite).
We embed that store as an explicit state (`DB` for the four document
collections, `AuthState` for sessions) and translate each service wrapper
(workoutService.js, authService.js, the screen-level handlers in
index.jsx / WorkoutScreen.jsx) into a pure function on that state.
Remote calls that can fail transiently are parameterised by explicit
failure oracles; fallible operations return their result in `Except`.
-/

namespace FitWeek

/-! ## Data model: the four document collections -/

/-- A document of the weekdays collection. -/
structure WeekdayDoc where
  id : Nat
  dayName : String
  description : String
  order : Nat
  userId : Nat
  deriving Repr, DecidableEq

/-- A document of the workout_exercises collection (join of a weekday and
a library exercise). -/
structure WorkoutExerciseDoc where
  id : Nat
  weekdayId : Nat
  exerciseId : Nat
  deriving Repr, DecidableEq

/-- A document of the exercise_sets collection. -/
structure ExerciseSetDoc where
  id : Nat
  workoutExerciseId : Nat
  setNumber : Nat
  reps : Nat
  weight : Nat
  deriving Repr, DecidableEq

/-- A document of the exercises (library) collection. -/
structure ExerciseDoc where
  id : Nat
  name : String
  bodyPart : String
  category : String
  thumbnail : Option String
  deriving Repr, DecidableEq

/-- The remote document database: one list per collection used by the
workout service. -/
structure DB where
  weekdays : List WeekdayDoc
  workoutExercises : List WorkoutExerciseDoc
  exerciseSets : List ExerciseSetDoc
  exercises : List ExerciseDoc
  deriving Repr, DecidableEq

/-! ## Query semantics: orderAsc / orderDesc sorting

The store's list queries can sort by a numeric attribute.  We embed the
sort as insertion sort keyed by a `Nat`-valued projection. -/

/-- Insert `x` into a list kept ascending by key `f`. -/
def insertByLe (f : α → Nat) (x : α) : List α → List α
  | [] => [x]
  | y :: ys => if f x ≤ f y then x :: y :: ys else y :: insertByLe f x ys

/-- Sort ascending by key `f` (semantics of a Query.orderAsc clause). -/
def sortByLe (f : α → Nat) : List α → List α
  | [] => []
  | x :: xs => insertByLe f x (sortByLe f xs)

/-- Insert `x` into a list kept descending by key `f`. -/
def insertByGe (f : α → Nat) (x : α) : List α → List α
  | [] => [x]
  | y :: ys => if f y ≤ f x then x :: y :: ys else y :: insertByGe f x ys

/-- Sort descending by key `f` (semantics of a Query.orderDesc clause). -/
def sortByGe (f : α → Nat) : List α → List α
  | [] => []
  | x :: xs => insertByGe f x (sortByGe f xs)

/-- Maximum of a list of naturals, 0 on the empty list.  Used only to
state specifications about assigned set numbers. -/
def maxNat : List Nat → Nat
  | [] => 0
  | x :: xs => Nat.max x (maxNat xs)

/-- JavaScript falsiness of an optional number: the source guards
addSetToExercise's set number with a bare truthiness test, so both a
missing value and an explicit 0 count as absent. -/
def jsFalsy : Option Nat → Bool
  | none => true
  | some 0 => true
  | some _ => false

namespace workoutService

/-- getUserWeekdays: list the user's weekdays ordered ascending by the
order attribute, then annotate each with the count of workout-exercise
documents referencing it (workoutService.js). -/
def getUserWeekdays (db : DB) (userId : Nat) : List (WeekdayDoc × Nat) :=
  (sortByLe (fun w => w.order) (db.weekdays.filter (fun w => w.userId == userId))).map
    (fun w => (w, (db.workoutExercises.filter (fun e => e.weekdayId == w.id)).length))

/-- The seven (dayName, description, order) rows created for a new user
(workoutService.js, createInitialWeekdays). -/
def initialWeekdayRows : List (String × String × Nat) :=
  [("Monday", "Back + Bicep", 1),
   ("Tuesday", "Shoulder + Arms", 2),
   ("Wednesday", "Lower body", 3),
   ("Thursday", "Push day", 4),
   ("Friday", "Pull day", 5),
   ("Saturday", "Lower body", 6),
   ("Sunday", "Rest Day", 7)]

/-- createInitialWeekdays: create the seven weekday documents for
`userId`, each with a fresh unique id drawn from `gen`
(workoutService.js). -/
def createInitialWeekdays (db : DB) (gen : Nat → Nat) (userId : Nat) : DB :=
  { db with
    weekdays := db.weekdays ++
      initialWeekdayRows.enum.map
        (fun p => { id := gen p.1, dayName := p.2.1, description := p.2.2.1,
                    order := p.2.2.2, userId := userId }) }

/-- updateWeekdayDescription: update the description attribute of one
weekday document (workoutService.js). -/
def updateWeekdayDescription (db : DB) (weekdayId : Nat) (description : String) : DB :=
  { db with
    weekdays := db.weekdays.map
      (fun w => if w.id == weekdayId then { w with description := description } else w) }

/-- The entry getWeekdayExercises pushes for one workout-exercise
document: the document itself together with the looked-up exercise
fields and the exercise's sets. -/
structure WorkoutExerciseView where
  we : WorkoutExerciseDoc
  exerciseName : String
  bodyPart : String
  category : String
  thumbnail : Option String
  sets : List ExerciseSetDoc
  deriving Repr, DecidableEq

/-- The per-item body of getWeekdayExercises's loop: fetch the library
exercise by id, then the exercise's sets ordered ascending by setNumber;
if either lookup fails (missing exercise document, or the sets query
failing per the `setsFail` oracle) push a placeholder entry instead
(workoutService.js). -/
def processWorkoutExercise (db : DB) (setsFail : Nat → Bool) (w : WorkoutExerciseDoc) :
    WorkoutExerciseView :=
  match db.exercises.find? (fun e => e.id == w.exerciseId) with
  | some ex =>
      if setsFail w.id then
        { we := w, exerciseName := "Unknown Exercise", bodyPart := "", category := "",
          thumbnail := none, sets := [] }
      else
        { we := w, exerciseName := ex.name, bodyPart := ex.bodyPart, category := ex.category,
          thumbnail := ex.thumbnail,
          sets := sortByLe (fun s => s.setNumber)
            (db.exerciseSets.filter (fun s => s.workoutExerciseId == w.id)) }
  | none =>
      { we := w, exerciseName := "Unknown Exercise", bodyPart := "", category := "",
        thumbnail := none, sets := [] }

/-- getWeekdayExercises: list the workout-exercise documents of a
weekday and resolve each to a view entry (workoutService.js). -/
def getWeekdayExercises (db : DB) (setsFail : Nat → Bool) (weekdayId : Nat) :
    List WorkoutExerciseView :=
  (db.workoutExercises.filter (fun w => w.weekdayId == weekdayId)).map
    (processWorkoutExercise db setsFail)

/-- addExerciseToWeekday: create one workout-exercise document linking
the weekday to the library exercise (workoutService.js). -/
def addExerciseToWeekday (db : DB) (newId weekdayId exerciseId : Nat) :
    DB × WorkoutExerciseDoc :=
  let doc : WorkoutExerciseDoc := { id := newId, weekdayId := weekdayId, exerciseId := exerciseId }
  ({ db with workoutExercises := db.workoutExercises ++ [doc] }, doc)

/-- addSetToExercise: when the caller passes no (truthy) set number,
query the exercise's sets ordered descending by setNumber limited to one
document and use its setNumber plus one, defaulting to 1 when the
exercise has no sets or the query fails (`listFail`); then create the
set document (workoutService.js). -/
def addSetToExercise (db : DB) (newId workoutExerciseId reps weight : Nat)
    (setNumber : Option Nat) (listFail : Bool) : DB × ExerciseSetDoc :=
  let sn : Nat :=
    if jsFalsy setNumber then
      if listFail then 1
      else
        match (sortByGe (fun s => s.setNumber)
                (db.exerciseSets.filter (fun s => s.workoutExerciseId == workoutExerciseId))).take 1 with
        | d :: _ => d.setNumber + 1
        | [] => 1
    else setNumber.getD 0
  let doc : ExerciseSetDoc :=
    { id := newId, workoutExerciseId := workoutExerciseId, setNumber := sn,
      reps := reps, weight := weight }
  ({ db with exerciseSets := db.exerciseSets ++ [doc] }, doc)

/-- deleteSet: delete one exercise-set document (workoutService.js). -/
def deleteSet (db : DB) (setId : Nat) : DB :=
  { db with exerciseSets := db.exerciseSets.filter (fun s => s.id != setId) }

/-- The set-deletion loop of deleteExerciseFromWeekday: delete the
listed set documents one by one; the first deletion the `delFail` oracle
makes throw aborts the loop (returning false, the caught error). -/
def deleteSetsOf (delFail : Nat → Bool) : DB → List ExerciseSetDoc → DB × Bool
  | db, [] => (db, true)
  | db, s :: rest =>
      if delFail s.id then (db, false)
      else deleteSetsOf delFail
        { db with exerciseSets := db.exerciseSets.filter (fun t => t.id != s.id) } rest

/-- deleteExerciseFromWeekday: list the exercise's set documents and try
to delete them (any error there is caught and only logged), then delete
the workout-exercise document itself; `parentDelFail` makes that final
deletion throw (workoutService.js). -/
def deleteExerciseFromWeekday (db : DB) (delFail : Nat → Bool) (parentDelFail : Bool)
    (workoutExerciseId : Nat) : DB × Except Unit Bool :=
  let matching := db.exerciseSets.filter (fun s => s.workoutExerciseId == workoutExerciseId)
  let res := deleteSetsOf delFail db matching
  if parentDelFail then (res.1, .error ())
  else
    ({ res.1 with
        workoutExercises := res.1.workoutExercises.filter (fun w => w.id != workoutExerciseId) },
     .ok true)

/-- updateSet: update the reps and weight attributes of one set
document (workoutService.js). -/
def updateSet (db : DB) (setId reps weight : Nat) : DB :=
  { db with
    exerciseSets := db.exerciseSets.map
      (fun s => if s.id == setId then { s with reps := reps, weight := weight } else s) }

end workoutService

/-! ## Session model and the two authService variants -/

/-- One account session; the identity it authenticates is its email. -/
structure Session where
  email : String
  deriving Repr, DecidableEq

/-- The account state held by the remote auth service: the stack of
sessions of this client, most recent ("current") first. -/
structure AuthState where
  sessions : List Session
  deriving Repr, DecidableEq

/-- account.get: the identity of the current session, or an error when
no session is active. -/
def accountGet (st : AuthState) : Except Unit String :=
  match st.sessions with
  | [] => .error ()
  | s :: _ => .ok s.email

/-- account.createEmailSession: creates a session for the credentials;
the service refuses (errors) when a session is already active — the
source's own comment says the pre-check exists "to avoid the error". -/
def accountCreateEmailSession (st : AuthState) (email _password : String) :
    Except Unit (AuthState × String) :=
  match st.sessions with
  | [] => .ok ({ sessions := [{ email := email }] }, email)
  | _ :: _ => .error ()

/-- Outcome oracle for a remote call that can fail with an HTTP error
code. -/
inductive CallOutcome where
  | success
  | failure (code : Nat)
  deriving Repr, DecidableEq

/-- account.deleteSession for the current session: on success the
current session is removed; otherwise the call throws the oracle's
error code. -/
def accountDeleteSessionCurrent (st : AuthState) (r : CallOutcome) :
    AuthState × Except Nat Unit :=
  match r with
  | .success => ({ sessions := st.sessions.tail }, .ok ())
  | .failure code => (st, .error code)

namespace authService

/-- What the session-checking login returns: the current identity when a
session already existed, or the newly created email session. -/
inductive LoginResult where
  | identity (user : String)
  | session (email : String)
  deriving Repr, DecidableEq

/-- hasActiveSession: account.get wrapped in try/catch, true exactly
when the identity lookup succeeds (authService.js, session-checking
variant). -/
def hasActiveSession (st : AuthState) : Bool :=
  match accountGet st with
  | .ok _ => true
  | .error _ => false

/-- login (session-checking variant): when a session is already active
return the current identity without creating anything; otherwise create
a new email session (authService.js, session-checking variant). -/
def login (st : AuthState) (email password : String) :
    AuthState × Except Unit LoginResult :=
  if hasActiveSession st then
    match accountGet st with
    | .ok u => (st, .ok (.identity u))
    | .error e => (st, .error e)
  else
    match accountCreateEmailSession st email password with
    | .ok (st1, s) => (st1, .ok (.session s))
    | .error e => (st, .error e)

/-- logout (session-checking variant): delete the current session; a
401 from the service (already logged out / expired) is swallowed and
reported as success, any other error is rethrown (authService.js,
session-checking variant). -/
def logout (st : AuthState) (r : CallOutcome) : AuthState × Except Nat Bool :=
  match accountDeleteSessionCurrent st r with
  | (st1, .ok _) => (st1, .ok true)
  | (st1, .error code) => if code == 401 then (st1, .ok true) else (st1, .error code)

end authService

namespace appAuthService

/-- login as in app/services/authService.js: unconditionally create an
email session, then return account.get. -/
def login (st : AuthState) (email password : String) :
    AuthState × Except Unit String :=
  match accountCreateEmailSession st email password with
  | .ok (st1, _) =>
      match accountGet st1 with
      | .ok u => (st1, .ok u)
      | .error e => (st1, .error e)
  | .error e => (st, .error e)

/-- logout as in app/services/authService.js: delete the current
session; every error is logged and rethrown (no 401 tolerance). -/
def logout (st : AuthState) (r : CallOutcome) : AuthState × Except Nat Bool :=
  match accountDeleteSessionCurrent st r with
  | (st1, .ok _) => (st1, .ok true)
  | (st1, .error code) => (st1, .error code)

/-- register as in app/services/authService.js: create the account,
create an email session, then create the user's initial weekdays. -/
def register (auth : AuthState) (db : DB) (gen : Nat → Nat)
    (email password _name : String) (newUserId : Nat) :
    Except Unit (AuthState × DB × Nat) :=
  match accountCreateEmailSession auth email password with
  | .ok (auth1, _) =>
      .ok (auth1, workoutService.createInitialWeekdays db gen newUserId, newUserId)
  | .error e => .error e

end appAuthService

/-- The root navigator's local state (index.jsx). -/
structure AppState where
  isLoggedIn : Bool
  deriving Repr, DecidableEq

/-- handleLogout (index.jsx): attempt the service logout, swallowing any
error it throws, then always clear the local authenticated flag and
report success. -/
def handleLogout (auth : AuthState) (app : AppState) (r : CallOutcome) :
    AuthState × AppState × Bool :=
  let step := appAuthService.logout auth r
  (step.1, { app with isLoggedIn := false }, true)

/-- ensureWeekdaysExist (WorkoutScreen.jsx): fetch the user's weekdays
(an error there yields the empty list, per the `fetchFail` oracle); when
fewer than seven exist, create the initial batch and refetch. -/
def ensureWeekdaysExist (db : DB) (gen : Nat → Nat) (fetchFail : Bool) (userId : Nat) :
    DB × List (WeekdayDoc × Nat) :=
  let userWeekdays := if fetchFail then [] else workoutService.getUserWeekdays db userId
  if userWeekdays.length < 7 then
    let db1 := workoutService.createInitialWeekdays db gen userId
    (db1, workoutService.getUserWeekdays db1 userId)
  else
    (db, userWeekdays)

/-! ## Helper lemmas about the query sort and list maxima -/

theorem mem_insertByLe (f : α → Nat) (x : α) (l : List α) (a : α) :
    a ∈ insertByLe f x l ↔ a = x ∨ a ∈ l := by
  induction l with
  | nil => simp [insertByLe]
  | cons y ys ih =>
    by_cases h : f x ≤ f y
    · simp [insertByLe, h]
    · simp only [insertByLe, if_neg h, List.mem_cons, ih]
      tauto

theorem pairwise_insertByLe (f : α → Nat) (x : α) (l : List α)
    (h : l.Pairwise (fun a b => f a ≤ f b)) :
    (insertByLe f x l).Pairwise (fun a b => f a ≤ f b) := by
  induction l with
  | nil => simp [insertByLe]
  | cons y ys ih =>
    rcases List.pairwise_cons.mp h with ⟨hy, hys⟩
    by_cases hxy : f x ≤ f y
    · simp only [insertByLe, if_pos hxy]
      refine List.pairwise_cons.mpr ⟨?_, h⟩
      intro b hb
      rcases List.mem_cons.mp hb with rfl | hb
      · exact hxy
      · exact le_trans hxy (hy b hb)
    · simp only [insertByLe, if_neg hxy]
      refine List.pairwise_cons.mpr ⟨?_, ih hys⟩
      intro b hb
      rcases (mem_insertByLe f x ys b).mp hb with rfl | hb
      · omega
      · exact hy b hb

theorem pairwise_sortByLe (f : α → Nat) (l : List α) :
    (sortByLe f l).Pairwise (fun a b => f a ≤ f b) := by
  induction l with
  | nil => simp [sortByLe]
  | cons x xs ih => exact pairwise_insertByLe f x _ ih

/-- The head of the descending sort is a maximal element of the input:
exactly what a Query.orderDesc plus Query.limit(1) lookup relies on. -/
theorem sortByGe_spec (f : α → Nat) (l : List α) :
    (l = [] ∧ sortByGe f l = []) ∨
    ∃ h t, sortByGe f l = h :: t ∧ h ∈ l ∧ ∀ x ∈ l, f x ≤ f h := by
  induction l with
  | nil => exact Or.inl ⟨rfl, rfl⟩
  | cons x xs ih =>
    right
    rcases ih with ⟨hxs, hs⟩ | ⟨h, t, hs, hmem, hmax⟩
    · subst hxs
      refine ⟨x, [], by simp [sortByGe, insertByGe], List.mem_singleton.mpr rfl, ?_⟩
      intro a ha
      rw [List.mem_singleton.mp ha]
    · by_cases hc : f h ≤ f x
      · refine ⟨x, h :: t, by simp [sortByGe, hs, insertByGe, hc], List.mem_cons_self x xs, ?_⟩
        intro a ha
        rcases List.mem_cons.mp ha with rfl | ha
        · exact le_refl _
        · exact le_trans (hmax a ha) hc
      · refine ⟨h, insertByGe f x t, by simp [sortByGe, hs, insertByGe, hc],
          List.mem_cons_of_mem x hmem, ?_⟩
        intro a ha
        rcases List.mem_cons.mp ha with rfl | ha
        · omega
        · exact hmax a ha

theorem le_maxNat (l : List Nat) (x : Nat) (hx : x ∈ l) : x ≤ maxNat l := by
  induction l with
  | nil => cases hx
  | cons a t ih =>
    simp only [maxNat]
    rcases List.mem_cons.mp hx with rfl | hx
    · exact Nat.le_max_left _ _
    · exact le_trans (ih hx) (Nat.le_max_right _ _)

theorem maxNat_le (l : List Nat) (m : Nat) (h : ∀ x ∈ l, x ≤ m) : maxNat l ≤ m := by
  induction l with
  | nil => exact Nat.zero_le m
  | cons a t ih =>
    simp only [maxNat]
    exact Nat.max_le.mpr
      ⟨h a (List.mem_cons_self a t), ih (fun x hx => h x (List.mem_cons_of_mem a hx))⟩

theorem maxNat_eq (l : List Nat) (m : Nat) (hm : m ∈ l) (h : ∀ x ∈ l, x ≤ m) :
    maxNat l = m :=
  Nat.le_antisymm (maxNat_le l m h) (le_maxNat l m hm)

/-! ## Helper lemmas about the cascading-delete loop -/

namespace workoutService

/-- The set-deletion loop touches only the exercise-sets collection. -/
theorem deleteSetsOf_frame (delFail : Nat → Bool) (l : List ExerciseSetDoc) :
    ∀ db : DB,
      (deleteSetsOf delFail db l).1.weekdays = db.weekdays ∧
      (deleteSetsOf delFail db l).1.workoutExercises = db.workoutExercises ∧
      (deleteSetsOf delFail db l).1.exercises = db.exercises := by
  induction l with
  | nil => intro db; exact ⟨rfl, rfl, rfl⟩
  | cons s rest ih =>
    intro db
    by_cases h : delFail s.id
    · simp [deleteSetsOf, h]
    · simpa [deleteSetsOf, h] using
        ih { db with exerciseSets := db.exerciseSets.filter (fun t => t.id != s.id) }

/-- When no deletion in the loop fails, the loop removes exactly the
documents whose ids occur in the processed list. -/
theorem deleteSetsOf_ok (delFail : Nat → Bool) (l : List ExerciseSetDoc)
    (hok : ∀ s ∈ l, delFail s.id = false) :
    ∀ db : DB,
      (deleteSetsOf delFail db l).1.exerciseSets
        = db.exerciseSets.filter (fun t => !(l.any (fun s => t.id == s.id))) := by
  induction l with
  | nil => intro db; simp [deleteSetsOf]
  | cons s rest ih =>
    intro db
    have hs : delFail s.id = false := hok s (List.mem_cons_self s rest)
    have hrest : ∀ u ∈ rest, delFail u.id = false :=
      fun u hu => hok u (List.mem_cons_of_mem s hu)
    simp only [deleteSetsOf, hs, Bool.false_eq_true, if_false]
    rw [ih hrest]
    simp only [List.filter_filter, List.any_cons]
    apply List.filter_congr
    intro t _
    by_cases h1 : t.id = s.id
    · simp [h1]
    · simp [h1, Bool.and_comm, bne]

end workoutService

/-! ## Claim C1: cascading delete of a workout-exercise -/

/-- Claim C1 counterexample: one workout-exercise (id 1) owns one set (id 10)
whose deletion fails; deleteExerciseFromWeekday nonetheless deletes the
workout-exercise document and reports success, while the set survives — so
"if the deletion of the sets fails, the workout-exercise is not deleted" is
false of the code. -/
theorem claim_C1_counterexample :
    workoutService.deleteExerciseFromWeekday
        { weekdays := [],
          workoutExercises := [{ id := 1, weekdayId := 5, exerciseId := 100 }],
          exerciseSets := [{ id := 10, workoutExerciseId := 1, setNumber := 1,
                             reps := 8, weight := 50 }],
          exercises := [] }
        (fun i => i == 10) false 1
      = ({ weekdays := [], workoutExercises := [],
           exerciseSets := [{ id := 10, workoutExerciseId := 1, setNumber := 1,
                              reps := 8, weight := 50 }],
           exercises := [] }, Except.ok true) := by
  rfl

/-- Claim C1 (amended): deleteExerciseFromWeekday first attempts to delete every
ExerciseSet whose workoutExerciseId matches (and removes them all when no
deletion fails), then deletes the workout-exercise document itself; a failure
while deleting the sets is caught and logged and the workout-exercise document
is deleted anyway — only a failure of the final parent deletion leaves the
parent in place. -/
theorem claim_C1_cascade_delete (db : DB) (delFail : Nat → Bool) (pdf : Bool) (weId : Nat) :
    (pdf = false →
       (workoutService.deleteExerciseFromWeekday db delFail pdf weId).1.workoutExercises
         = db.workoutExercises.filter (fun w => w.id != weId) ∧
       (workoutService.deleteExerciseFromWeekday db delFail pdf weId).2 = Except.ok true) ∧
    (pdf = true →
       (workoutService.deleteExerciseFromWeekday db delFail pdf weId).1.workoutExercises
         = db.workoutExercises ∧
       (workoutService.deleteExerciseFromWeekday db delFail pdf weId).2 = Except.error ()) ∧
    ((db.exerciseSets.map (fun s => s.id)).Nodup →
     (∀ s ∈ db.exerciseSets, s.workoutExerciseId = weId → delFail s.id = false) →
     (workoutService.deleteExerciseFromWeekday db delFail pdf weId).1.exerciseSets
       = db.exerciseSets.filter (fun s => s.workoutExerciseId != weId)) := by
  have hframe := workoutService.deleteSetsOf_frame delFail
    (db.exerciseSets.filter (fun s => s.workoutExerciseId == weId)) db
  refine ⟨?_, ?_, ?_⟩
  · rintro rfl
    constructor
    · simp only [workoutService.deleteExerciseFromWeekday, Bool.false_eq_true, if_false]
      rw [hframe.2.1]
    · simp [workoutService.deleteExerciseFromWeekday]
  · rintro rfl
    constructor
    · simp only [workoutService.deleteExerciseFromWeekday, if_true]
      exact hframe.2.1
    · simp [workoutService.deleteExerciseFromWeekday]
  · intro hnd hok
    have hok2 : ∀ s ∈ db.exerciseSets.filter (fun s => s.workoutExerciseId == weId),
        delFail s.id = false := by
      intro s hs
      rcases List.mem_filter.mp hs with ⟨hmem, hcond⟩
      exact hok s hmem (by simpa using hcond)
    have hsets := workoutService.deleteSetsOf_ok delFail _ hok2 db
    have hmain : (workoutService.deleteSetsOf delFail db
        (db.exerciseSets.filter (fun s => s.workoutExerciseId == weId))).1.exerciseSets
        = db.exerciseSets.filter (fun s => s.workoutExerciseId != weId) := by
      rw [hsets]
      apply List.filter_congr
      intro t ht
      by_cases hw : t.workoutExerciseId = weId
      · have htm : t ∈ db.exerciseSets.filter (fun s => s.workoutExerciseId == weId) :=
          List.mem_filter.mpr ⟨ht, by simp [hw]⟩
        have hany : (db.exerciseSets.filter (fun s => s.workoutExerciseId == weId)).any
            (fun s => t.id == s.id) = true :=
          List.any_eq_true.mpr ⟨t, htm, by simp⟩
        simp [hany, hw, bne]
      · have hany : (db.exerciseSets.filter (fun s => s.workoutExerciseId == weId)).any
            (fun s => t.id == s.id) = false := by
          rw [List.any_eq_false]
          intro s hs hid
          rcases List.mem_filter.mp hs with ⟨hsm, hsc⟩
          have hts : t = s :=
            List.inj_on_of_nodup_map hnd ht hsm (by simpa using hid)
          rw [hts] at hw
          exact hw (by simpa using hsc)
        simp [hany, hw, bne]
    by_cases hp : pdf
    · simp only [workoutService.deleteExerciseFromWeekday, hp, if_true]
      exact hmain
    · simp only [workoutService.deleteExerciseFromWeekday, hp, Bool.false_eq_true, if_false]
      exact hmain

/-- Claim C1 witness: a concrete run with no deletion failure, over two sets of
which one belongs to the deleted workout-exercise. -/
theorem claim_C1_witness :
    (workoutService.deleteExerciseFromWeekday
        { weekdays := [],
          workoutExercises := [{ id := 1, weekdayId := 5, exerciseId := 100 }],
          exerciseSets := [{ id := 10, workoutExerciseId := 1, setNumber := 1,
                             reps := 8, weight := 50 },
                           { id := 11, workoutExerciseId := 2, setNumber := 1,
                             reps := 5, weight := 40 }],
          exercises := [] }
        (fun _ => false) false 1).1.workoutExercises = []
    ∧ (workoutService.deleteExerciseFromWeekday
        { weekdays := [],
          workoutExercises := [{ id := 1, weekdayId := 5, exerciseId := 100 }],
          exerciseSets := [{ id := 10, workoutExerciseId := 1, setNumber := 1,
                             reps := 8, weight := 50 },
                           { id := 11, workoutExerciseId := 2, setNumber := 1,
                             reps := 5, weight := 40 }],
          exercises := [] }
        (fun _ => false) false 1).1.exerciseSets
      = [{ id := 11, workoutExerciseId := 2, setNumber := 1, reps := 5, weight := 40 }] := by
  have h := claim_C1_cascade_delete
    { weekdays := [],
      workoutExercises := [{ id := 1, weekdayId := 5, exerciseId := 100 }],
      exerciseSets := [{ id := 10, workoutExerciseId := 1, setNumber := 1,
                         reps := 8, weight := 50 },
                       { id := 11, workoutExerciseId := 2, setNumber := 1,
                         reps := 5, weight := 40 }],
      exercises := [] }
    (fun _ => false) false 1
  exact ⟨((h.1 rfl).1).trans (by decide), (h.2.2 (by decide) (fun s _ _ => rfl)).trans (by decide)⟩

/-! ## Claim C2: login with an already-active session -/

/-- Claim C2 counterexample: the repository's second authService.login
(app/services/authService.js) performs no session check: called while a
session is active it fails the createEmailSession call instead of returning
the identity of the already-logged-in user — so, read over every
authService.login of the repository, the claim is false. -/
theorem claim_C2_counterexample :
    authService.hasActiveSession { sessions := [{ email := "first@user.com" }] } = true
    ∧ appAuthService.login { sessions := [{ email := "first@user.com" }] }
        "second@user.com" "pw"
      = ({ sessions := [{ email := "first@user.com" }] }, Except.error ()) :=
  ⟨rfl, rfl⟩

/-- Claim C2 (amended): the session-checking authService.login (the variant
whose login first calls hasActiveSession) creates no second session when one
is active — it leaves the session state unchanged and returns the current
identity — and creates a new email session exactly when no session is active;
the duplicate authService.login in app/services/authService.js instead always
attempts to create an email session and fails when a session is active. -/
theorem claim_C2_login (st : AuthState) (email password : String) :
    (authService.hasActiveSession st = true →
       ∃ u, accountGet st = Except.ok u ∧
         authService.login st email password
           = (st, Except.ok (authService.LoginResult.identity u))) ∧
    (authService.hasActiveSession st = false →
       authService.login st email password
         = ({ sessions := [{ email := email }] },
            Except.ok (authService.LoginResult.session email))) := by
  obtain ⟨sessions⟩ := st
  cases sessions with
  | nil =>
    constructor
    · intro h
      simp [authService.hasActiveSession, accountGet] at h
    · intro _
      rfl
  | cons s rest =>
    constructor
    · intro _
      exact ⟨s.email, rfl, rfl⟩
    · intro h
      simp [authService.hasActiveSession, accountGet] at h

/-- Claim C2 witness: a concrete login with an active session returns the
logged-in identity and leaves the state unchanged; one with no session
creates the email session. -/
theorem claim_C2_witness :
    authService.login { sessions := [{ email := "a@x.com" }] } "b@y.com" "pw"
      = ({ sessions := [{ email := "a@x.com" }] },
         Except.ok (authService.LoginResult.identity "a@x.com"))
    ∧ authService.login { sessions := [] } "b@y.com" "pw"
      = ({ sessions := [{ email := "b@y.com" }] },
         Except.ok (authService.LoginResult.session "b@y.com")) := by
  have h1 := claim_C2_login { sessions := [{ email := "a@x.com" }] } "b@y.com" "pw"
  have h2 := claim_C2_login { sessions := [] } "b@y.com" "pw"
  obtain ⟨u, hu, hl⟩ := h1.1 rfl
  have hu2 : u = "a@x.com" := by simpa [accountGet] using hu.symm
  rw [hu2] at hl
  exact ⟨hl, h2.2 rfl⟩

/-! ## Claim C4: logout tolerance of 401 and the local flag -/

/-- Claim C4: the session-checking authService.logout reports success when the
remote session deletion fails with a 401, and handleLogout clears the local
authenticated flag and reports success whatever the remote logout call does. -/
theorem claim_C4_logout (st st2 : AuthState) (app : AppState) (r : CallOutcome) :
    authService.logout st2 (CallOutcome.failure 401) = (st2, Except.ok true) ∧
    (handleLogout st app r).2.1.isLoggedIn = false ∧
    (handleLogout st app r).2.2 = true :=
  ⟨rfl, rfl, rfl⟩

/-! ## Claim C5: a weekday with no workout-exercises -/

/-- Claim C5: when no WorkoutExercise document references the weekday,
getWeekdayExercises returns the empty sequence. -/
theorem claim_C5_empty_weekday (db : DB) (setsFail : Nat → Bool) (weekdayId : Nat)
    (h : db.workoutExercises.filter (fun w => w.weekdayId == weekdayId) = []) :
    workoutService.getWeekdayExercises db setsFail weekdayId = [] := by
  simp [workoutService.getWeekdayExercises, h]

/-- Claim C5 witness: a weekday (id 5) referenced by no workout-exercise in a
store holding one workout-exercise for another weekday. -/
theorem claim_C5_witness :
    workoutService.getWeekdayExercises
      { weekdays := [], workoutExercises := [{ id := 1, weekdayId := 9, exerciseId := 3 }],
        exerciseSets := [], exercises := [] } (fun _ => false) 5 = [] :=
  claim_C5_empty_weekday _ _ _ (by decide)

/-! ## Claim C3: client-side set numbering -/

/-- Claim C3: addSetToExercise with no explicit set number (and a working sets
query) assigns the maximum setNumber among the exercise's existing sets plus
one, and 1 when the exercise has no sets. -/
theorem claim_C3_set_numbering (db : DB) (newId weId reps weight : Nat) :
    (db.exerciseSets.filter (fun s => s.workoutExerciseId == weId) = [] →
      (workoutService.addSetToExercise db newId weId reps weight none false).2.setNumber = 1) ∧
    (db.exerciseSets.filter (fun s => s.workoutExerciseId == weId) ≠ [] →
      (workoutService.addSetToExercise db newId weId reps weight none false).2.setNumber
        = maxNat ((db.exerciseSets.filter (fun s => s.workoutExerciseId == weId)).map
            (fun s => s.setNumber)) + 1) := by
  rcases sortByGe_spec (fun s => s.setNumber)
      (db.exerciseSets.filter (fun s => s.workoutExerciseId == weId)) with
    ⟨hnil, hsorted⟩ | ⟨h, t, hsorted, hmem, hmax⟩
  · constructor
    · intro _
      simp [workoutService.addSetToExercise, jsFalsy, hsorted]
    · intro hne
      exact absurd hnil hne
  · constructor
    · intro hnil
      rw [hnil] at hmem
      cases hmem
    · intro _
      have hmx : maxNat ((db.exerciseSets.filter (fun s => s.workoutExerciseId == weId)).map
          (fun s => s.setNumber)) = h.setNumber := by
        apply maxNat_eq
        · exact List.mem_map.mpr ⟨h, hmem, rfl⟩
        · intro x hx
          rcases List.mem_map.mp hx with ⟨s, hsmem, rfl⟩
          exact hmax s hsmem
      rw [hmx]
      simp [workoutService.addSetToExercise, jsFalsy, hsorted]

/-- Claim C3 witness: numbering over an empty store gives 1; with existing
sets numbered 2 and 5 for the exercise (and 9 for another one) it gives 6. -/
theorem claim_C3_witness :
    (workoutService.addSetToExercise
        { weekdays := [], workoutExercises := [], exerciseSets := [], exercises := [] }
        20 1 10 60 none false).2.setNumber = 1
    ∧ (workoutService.addSetToExercise
        { weekdays := [], workoutExercises := [],
          exerciseSets := [{ id := 10, workoutExerciseId := 1, setNumber := 2,
                             reps := 8, weight := 50 },
                           { id := 11, workoutExerciseId := 1, setNumber := 5,
                             reps := 8, weight := 50 },
                           { id := 12, workoutExerciseId := 2, setNumber := 9,
                             reps := 8, weight := 50 }],
          exercises := [] }
        20 1 10 60 none false).2.setNumber = 6 := by
  have h1 := claim_C3_set_numbering
    { weekdays := [], workoutExercises := [], exerciseSets := [], exercises := [] } 20 1 10 60
  have h2 := claim_C3_set_numbering
    { weekdays := [], workoutExercises := [],
      exerciseSets := [{ id := 10, workoutExerciseId := 1, setNumber := 2,
                         reps := 8, weight := 50 },
                       { id := 11, workoutExerciseId := 1, setNumber := 5,
                         reps := 8, weight := 50 },
                       { id := 12, workoutExerciseId := 2, setNumber := 9,
                         reps := 8, weight := 50 }],
      exercises := [] } 20 1 10 60
  exact ⟨h1.1 rfl, (h2.2 (by decide)).trans (by decide)⟩

/-! ## Claim C10: an explicit set number of 0 -/

/-- Claim C10: passing an explicit set number of 0 to addSetToExercise behaves
exactly like passing none (the falsy guard reassigns it), and no call ever
creates a set document whose setNumber is 0. -/
theorem claim_C10_no_zero_setNumber (db : DB) (newId weId reps weight : Nat) (lf : Bool) :
    workoutService.addSetToExercise db newId weId reps weight (some 0) lf
      = workoutService.addSetToExercise db newId weId reps weight none lf ∧
    ∀ sn : Option Nat,
      0 < (workoutService.addSetToExercise db newId weId reps weight sn lf).2.setNumber := by
  have hnone :
      0 < (workoutService.addSetToExercise db newId weId reps weight none lf).2.setNumber := by
    simp only [workoutService.addSetToExercise, jsFalsy]
    cases lf with
    | true => simp
    | false =>
      cases htk : (sortByGe (fun s => s.setNumber)
          (db.exerciseSets.filter (fun s => s.workoutExerciseId == weId))).take 1 with
      | nil => simp [htk]
      | cons d rest => simp [htk]
  refine ⟨rfl, ?_⟩
  intro sn
  match sn with
  | none => exact hnone
  | some 0 => exact hnone
  | some (n + 1) => simp [workoutService.addSetToExercise, jsFalsy]

/-! ## Claim C6: the batch of seven initial weekdays and its triggers -/

/-- Claim C6: createInitialWeekdays creates exactly the seven weekday
documents Monday through Sunday with order 1 through 7 for the user; the
batch is triggered by ensureWeekdaysExist when the weekly plan loads with
fewer than seven weekdays (and only then), and by registration. -/
theorem claim_C6_initial_weekdays (db : DB) (gen : Nat → Nat) (userId : Nat)
    (auth : AuthState) (email password nm : String) (newUserId : Nat) (ff : Bool) :
    ((workoutService.createInitialWeekdays db gen userId).weekdays
       = db.weekdays ++
         [{ id := gen 0, dayName := "Monday", description := "Back + Bicep",
            order := 1, userId := userId },
          { id := gen 1, dayName := "Tuesday", description := "Shoulder + Arms",
            order := 2, userId := userId },
          { id := gen 2, dayName := "Wednesday", description := "Lower body",
            order := 3, userId := userId },
          { id := gen 3, dayName := "Thursday", description := "Push day",
            order := 4, userId := userId },
          { id := gen 4, dayName := "Friday", description := "Pull day",
            order := 5, userId := userId },
          { id := gen 5, dayName := "Saturday", description := "Lower body",
            order := 6, userId := userId },
          { id := gen 6, dayName := "Sunday", description := "Rest Day",
            order := 7, userId := userId }]) ∧
    ((if ff then [] else workoutService.getUserWeekdays db userId).length < 7 →
       ensureWeekdaysExist db gen ff userId
         = (workoutService.createInitialWeekdays db gen userId,
            workoutService.getUserWeekdays
              (workoutService.createInitialWeekdays db gen userId) userId)) ∧
    (¬ (if ff then [] else workoutService.getUserWeekdays db userId).length < 7 →
       ensureWeekdaysExist db gen ff userId
         = (db, workoutService.getUserWeekdays db userId)) ∧
    (auth = { sessions := [] } →
       appAuthService.register auth db gen email password nm newUserId
         = Except.ok ({ sessions := [{ email := email }] },
                      workoutService.createInitialWeekdays db gen newUserId, newUserId)) := by
  refine ⟨rfl, ?_, ?_, ?_⟩
  · intro h
    simp only [ensureWeekdaysExist]
    rw [if_pos h]
  · intro h
    simp only [ensureWeekdaysExist]
    rw [if_neg h]
    cases ff with
    | true => exact absurd (by simp) h
    | false => rfl
  · rintro rfl
    rfl

/-- Claim C6 witness: on an empty store the batch creation yields seven
weekdays, and loading the weekly plan for a user with zero weekdays triggers
it. -/
theorem claim_C6_witness :
    (workoutService.createInitialWeekdays
        { weekdays := [], workoutExercises := [], exerciseSets := [], exercises := [] }
        (fun i => i) 7).weekdays.length = 7
    ∧ ensureWeekdaysExist
        { weekdays := [], workoutExercises := [], exerciseSets := [], exercises := [] }
        (fun i => i) false 7
      = (workoutService.createInitialWeekdays
           { weekdays := [], workoutExercises := [], exerciseSets := [], exercises := [] }
           (fun i => i) 7,
         workoutService.getUserWeekdays
           (workoutService.createInitialWeekdays
             { weekdays := [], workoutExercises := [], exerciseSets := [], exercises := [] }
             (fun i => i) 7) 7) := by
  have h := claim_C6_initial_weekdays
    { weekdays := [], workoutExercises := [], exerciseSets := [], exercises := [] }
    (fun i => i) 7 { sessions := [] } "e@x.com" "pw" "n" 9 false
  refine ⟨?_, h.2.1 (by decide)⟩
  rw [h.1]
  rfl

/-! ## Claim C7: sets are returned ordered by setNumber -/

/-- Claim C7: every entry returned by getWeekdayExercises carries its sets in
ascending setNumber order — each adjacent pair of sets is ordered. -/
theorem claim_C7_sets_sorted (db : DB) (setsFail : Nat → Bool) (weekdayId : Nat)
    (v : workoutService.WorkoutExerciseView)
    (hv : v ∈ workoutService.getWeekdayExercises db setsFail weekdayId) :
    List.Chain' (fun a b => a.setNumber ≤ b.setNumber) v.sets := by
  rcases List.mem_map.mp hv with ⟨w, _, rfl⟩
  unfold workoutService.processWorkoutExercise
  cases hfind : db.exercises.find? (fun e => e.id == w.exerciseId) with
  | none => simp [hfind]
  | some ex =>
    by_cases hsf : setsFail w.id = true
    · simp [hfind, hsf]
    · simp only [hfind, Bool.not_eq_true] at *
      simp only [hsf, Bool.false_eq_true, if_false]
      exact (pairwise_sortByLe _ _).chain'

/-- Claim C7 witness: a weekday whose one exercise has two sets stored out of
order; the returned entry carries them ordered by setNumber. -/
theorem claim_C7_witness :
    ({ we := { id := 1, weekdayId := 5, exerciseId := 100 },
       exerciseName := "Bench Press", bodyPart := "Chest", category := "Barbell",
       thumbnail := none,
       sets := [{ id := 11, workoutExerciseId := 1, setNumber := 1, reps := 5, weight := 60 },
                { id := 10, workoutExerciseId := 1, setNumber := 2, reps := 5, weight := 70 }] }
      : workoutService.WorkoutExerciseView).sets.Chain'
        (fun a b => a.setNumber ≤ b.setNumber) :=
  claim_C7_sets_sorted
    { weekdays := [],
      workoutExercises := [{ id := 1, weekdayId := 5, exerciseId := 100 }],
      exerciseSets := [{ id := 10, workoutExerciseId := 1, setNumber := 2, reps := 5, weight := 70 },
                       { id := 11, workoutExerciseId := 1, setNumber := 1, reps := 5, weight := 60 }],
      exercises := [{ id := 100, name := "Bench Press", bodyPart := "Chest",
                      category := "Barbell", thumbnail := none }] }
    (fun _ => false) 5 _ (by decide)

/-! ## Claim C8: weekday documents are only description-updated, never deleted -/

/-- Claim C8: updateWeekdayDescription leaves the id, dayName, order and userId
of every weekday document (the targeted one included) unchanged and touches no
other collection; and every state-changing operation of the workout service
preserves the ids of all existing weekday documents (createInitialWeekdays only
appends), so no workout-service operation ever deletes a Weekday document. -/
theorem claim_C8_weekday_frame (db : DB) (wdid : Nat) (desc : String) (gen : Nat → Nat)
    (uid newId weekdayId exerciseId reps weight setId weId : Nat) (sn : Option Nat)
    (lf pdf : Bool) (delFail : Nat → Bool) :
    ((workoutService.updateWeekdayDescription db wdid desc).weekdays.map
        (fun w => (w.id, w.dayName, w.order, w.userId))
      = db.weekdays.map (fun w => (w.id, w.dayName, w.order, w.userId))) ∧
    ((workoutService.updateWeekdayDescription db wdid desc).workoutExercises
        = db.workoutExercises ∧
     (workoutService.updateWeekdayDescription db wdid desc).exerciseSets
        = db.exerciseSets ∧
     (workoutService.updateWeekdayDescription db wdid desc).exercises = db.exercises) ∧
    (∃ rest, (workoutService.createInitialWeekdays db gen uid).weekdays.map (fun w => w.id)
       = db.weekdays.map (fun w => w.id) ++ rest) ∧
    ((workoutService.updateWeekdayDescription db wdid desc).weekdays.map (fun w => w.id)
       = db.weekdays.map (fun w => w.id)) ∧
    ((workoutService.addExerciseToWeekday db newId weekdayId exerciseId).1.weekdays
       = db.weekdays) ∧
    ((workoutService.addSetToExercise db newId weId reps weight sn lf).1.weekdays
       = db.weekdays) ∧
    ((workoutService.deleteSet db setId).weekdays = db.weekdays) ∧
    ((workoutService.updateSet db setId reps weight).weekdays = db.weekdays) ∧
    ((workoutService.deleteExerciseFromWeekday db delFail pdf weId).1.weekdays
       = db.weekdays) := by
  have hproj : ∀ (α : Type) (f : WeekdayDoc → α),
      (∀ w : WeekdayDoc, f { w with description := desc } = f w) →
      (workoutService.updateWeekdayDescription db wdid desc).weekdays.map f
        = db.weekdays.map f := by
    intro α f hf
    simp only [workoutService.updateWeekdayDescription, List.map_map]
    apply List.map_congr_left
    intro w _
    simp only [Function.comp]
    by_cases h : (w.id == wdid) = true
    · rw [if_pos h]
      exact hf w
    · rw [if_neg h]
  have hframe := workoutService.deleteSetsOf_frame delFail
    (db.exerciseSets.filter (fun s => s.workoutExerciseId == weId)) db
  refine ⟨hproj _ _ (fun w => rfl), ⟨rfl, rfl, rfl⟩, ⟨?_, ?_⟩, hproj _ _ (fun w => rfl),
    rfl, rfl, rfl, rfl, ?_⟩
  · exact [gen 0, gen 1, gen 2, gen 3, gen 4, gen 5, gen 6]
  · simp [workoutService.createInitialWeekdays, workoutService.initialWeekdayRows, List.enum]
  · cases pdf with
    | true =>
      simp only [workoutService.deleteExerciseFromWeekday, if_true]
      exact hframe.1
    | false =>
      simp only [workoutService.deleteExerciseFromWeekday, Bool.false_eq_true, if_false]
      exact hframe.1

/-! ## Claim C9: one entry per workout-exercise, placeholder on lookup failure -/

/-- The loop body of getWeekdayExercises carries the workout-exercise document
through unchanged in both its branches. -/
theorem processWorkoutExercise_we (db : DB) (f : Nat → Bool) (w : WorkoutExerciseDoc) :
    (workoutService.processWorkoutExercise db f w).we = w := by
  unfold workoutService.processWorkoutExercise
  cases db.exercises.find? (fun e => e.id == w.exerciseId) with
  | none => rfl
  | some ex => by_cases h : f w.id = true <;> simp [h]

/-- Claim C9: getWeekdayExercises returns exactly one entry per WorkoutExercise
document referencing the weekday (in order, carrying that document), and an
entry whose exercise lookup or sets query failed is still present, with
exerciseName "Unknown Exercise", empty bodyPart and category, no thumbnail and
no sets. -/
theorem claim_C9_per_item_errors (db : DB) (f : Nat → Bool) (wid : Nat) :
    ((workoutService.getWeekdayExercises db f wid).map (fun v => v.we)
       = db.workoutExercises.filter (fun w => w.weekdayId == wid)) ∧
    (∀ v ∈ workoutService.getWeekdayExercises db f wid,
       (db.exercises.find? (fun e => e.id == v.we.exerciseId) = none ∨ f v.we.id = true) →
       v.exerciseName = "Unknown Exercise" ∧ v.bodyPart = "" ∧ v.category = ""
         ∧ v.thumbnail = none ∧ v.sets = []) := by
  constructor
  · simp only [workoutService.getWeekdayExercises, List.map_map]
    have h : ∀ w ∈ db.workoutExercises.filter (fun w => w.weekdayId == wid),
        ((fun v => v.we) ∘ workoutService.processWorkoutExercise db f) w = id w := by
      intro w _
      exact processWorkoutExercise_we db f w
    rw [List.map_congr_left h, List.map_id]
  · intro v hv hfail
    rcases List.mem_map.mp hv with ⟨w, _, rfl⟩
    rw [processWorkoutExercise_we] at hfail
    unfold workoutService.processWorkoutExercise
    rcases hfail with hnone | htrue
    · simp [hnone]
    · cases hfind : db.exercises.find? (fun e => e.id == w.exerciseId) with
      | none => simp [hfind]
      | some ex => simp [hfind, htrue]

/-- Claim C9 witness: a workout-exercise whose library exercise is missing from
the store still yields exactly one entry, the placeholder. -/
theorem claim_C9_witness :
    (workoutService.getWeekdayExercises
        { weekdays := [], workoutExercises := [{ id := 1, weekdayId := 5, exerciseId := 100 }],
          exerciseSets := [], exercises := [] } (fun _ => false) 5).map (fun v => v.we)
      = [{ id := 1, weekdayId := 5, exerciseId := 100 }]
    ∧ ({ we := { id := 1, weekdayId := 5, exerciseId := 100 },
         exerciseName := "Unknown Exercise", bodyPart := "", category := "",
         thumbnail := none, sets := [] } : workoutService.WorkoutExerciseView)
        ∈ workoutService.getWeekdayExercises
            { weekdays := [], workoutExercises := [{ id := 1, weekdayId := 5, exerciseId := 100 }],
              exerciseSets := [], exercises := [] } (fun _ => false) 5
    ∧ ({ we := { id := 1, weekdayId := 5, exerciseId := 100 },
         exerciseName := "Unknown Exercise", bodyPart := "", category := "",
         thumbnail := none, sets := [] } : workoutService.WorkoutExerciseView).sets = [] := by
  have h := claim_C9_per_item_errors
    { weekdays := [], workoutExercises := [{ id := 1, weekdayId := 5, exerciseId := 100 }],
      exerciseSets := [], exercises := [] } (fun _ => false) 5
  exact ⟨h.1.trans (by decide), by decide,
    (h.2 _ (by decide) (Or.inl (by decide))).2.2.2.2⟩

end FitWeek
